import Mathlib

/-
Verification of the Squire frontend (React + TypeScript) against its
natural-language specification.

The embedding models:
  * `src/frontend/src/services/api.ts` — the fetch wrapper and the four
    endpoint helpers (`healthCheck`, `triggerAgents`, `startAnalysis`,
    `getManagerReport`);
  * `src/frontend/src/hooks/useApi.ts` — the generic data/loading/error hook;
  * `src/frontend/src/pages/Dashboard.tsx` — the `handleTriggerAgents`
    state machine;
  * the report-enabled Dashboard variant (unnamed source `part_001`) —
    `handleGetReport` and the Manager-Report JSX section, embedded as a
    fallible evaluator over JSON values with JavaScript property-access
    semantics (property access on `null`/`undefined` throws, `.map` /
    `.slice` on a non-array throws, `&&` short-circuits, optional chaining
    `?.` absorbs nullish values);
  * `src/frontend/src/app/router.tsx` — the route table;
  * `src/frontend/src/components/Layout.tsx` — the backend-health indicator.

JavaScript values reachable from parsed JSON are modelled by `Json`;
`undefined` is modelled by `Option Json`'s `none`.  JSON numbers are
modelled as `Int` (the report counters and array lengths involved in the
claims are integers; no arithmetic beyond comparison with zero occurs).
-/

/-- A JSON value, as produced by `response.json()`. -/
inductive Json : Type where
  | null : Json
  | bool : Bool → Json
  | num : Int → Json
  | str : String → Json
  | arr : List Json → Json
  | obj : List (String × Json) → Json

/-- A JavaScript value that is either a `Json` value or `undefined`
(modelled as `none`). -/
abbrev Jv : Type := Option Json

/-- Last-binding-wins association lookup: JavaScript object literals and
`JSON.parse` keep the last occurrence of a duplicated key, and a spread
written after a key overrides it. -/
def lookupLast {α : Type} (l : List (String × α)) (k : String) : Option α :=
  (l.reverse.find? (fun p => p.1 == k)).map Prod.snd

/-- Property read on a non-nullish JavaScript value: objects look up the
field, strings and arrays expose `length`, other primitives expose none of
the properties the dashboard reads.  (`jget` is only ever applied to
non-null values; the `null` case is unreachable from `pget`/`oget`.) -/
def jget (j : Json) (k : String) : Jv :=
  match j with
  | .obj fields => lookupLast fields k
  | .str s => if k == "length" then some (.num (s.length : Int)) else none
  | .arr xs => if k == "length" then some (.num (xs.length : Int)) else none
  | _ => none

/-- `true` when the value is neither `undefined` nor `null` (property
access on it cannot throw). -/
def isNN : Jv → Bool
  | none => false
  | some .null => false
  | some _ => true

/-- Plain property access `a.b`: throws a TypeError (modelled as
`Except.error ()`) when the receiver is `undefined` or `null`. -/
def pget (v : Jv) (k : String) : Except Unit Jv :=
  match v with
  | none => .error ()
  | some .null => .error ()
  | some j => .ok (jget j k)

/-- Optional-chaining access `a?.b`: nullish receivers yield `undefined`
instead of throwing. -/
def oget (v : Jv) (k : String) : Jv :=
  match v with
  | none => none
  | some .null => none
  | some j => jget j k

/-- JavaScript truthiness of a value. -/
def truthy : Jv → Bool
  | none => false
  | some .null => false
  | some (.bool b) => b
  | some (.num n) => decide (n ≠ 0)
  | some (.str s) => decide (s ≠ "")
  | some (.arr _) => true
  | some (.obj _) => true

/-- The comparison `v > 0` as JavaScript evaluates it on the values that
can appear here: numbers compare directly, strings are coerced to a number
(approximated by `String.toInt?`; every `length` value reaching this
comparison in the claims is a number), booleans coerce to 0/1, and
`undefined`/`null`/arrays/objects compare false. -/
def gtZero : Jv → Bool
  | some (.num n) => decide (0 < n)
  | some (.str s) =>
      match s.toInt? with
      | some n => decide (0 < n)
      | none => false
  | some (.bool b) => b
  | _ => false

/-- Render every element of a list, stopping at the first thrown error
(`Array.prototype.map` evaluates the callback left to right). -/
def jseqAll (f : Json → Except Unit Unit) : List Json → Except Unit Unit
  | [] => .ok ()
  | x :: rest => f x >>= fun _ => jseqAll f rest

/-- `v.map(f)` used as a renderer: throws unless `v` is an array (strings
and plain objects have no callable `map`). -/
def jmapRender (v : Jv) (f : Json → Except Unit Unit) : Except Unit Unit :=
  match v with
  | some (.arr xs) => jseqAll f xs
  | _ => .error ()

/-- `v.slice(0, n).map(f)` used as a renderer: throws unless `v` is an
array.  (A string does have `slice`, but the subsequent `.map` on the
resulting string throws, so the observable outcome — an error — agrees.) -/
def jsliceMapRender (v : Jv) (n : Nat) (f : Json → Except Unit Unit) : Except Unit Unit :=
  match v with
  | some (.arr xs) => jseqAll f (xs.take n)
  | _ => .error ()

/- ===================== api.ts ===================== -/

/-- `API_BASE_URL = import.meta.env.VITE_API_BASE_URL || 'http://localhost:8002'`:
a falsy environment value (absent or empty) falls back to the default. -/
def apiBaseUrl (env : Option String) : String :=
  match env with
  | some s => if s == "" then "http://localhost:8002" else s
  | none => "http://localhost:8002"

/-- The subset of `RequestInit` the service uses.  `fetch` serialises the
`body` with `JSON.stringify`; we keep the JSON value itself. -/
structure RequestInit where
  method : Option String := none
  body : Option Json := none
  headers : List (String × String) := []

/-- The request `api.request` hands to `fetch`: the base URL concatenated
with the endpoint, the caller's options spread first, and the headers
object rebuilt as `{'Content-Type': 'application/json', ...options?.headers}`
(caller headers spread after the default, so they override it). -/
structure FetchCall where
  url : String
  method : Option String
  body : Option Json
  headers : List (String × String)

/-- Build the `fetch` call exactly as `api.request` does. -/
def buildRequest (env : Option String) (endpoint : String) (options : RequestInit) : FetchCall :=
  { url := apiBaseUrl env ++ endpoint
    method := options.method
    body := options.body
    headers := [("Content-Type", "application/json")] ++ options.headers }

/-- The method `fetch` actually uses when `options.method` is absent. -/
def effectiveMethod (options : RequestInit) : String :=
  options.method.getD "GET"

/-- A JavaScript `Error` object (only its `message` matters here). -/
structure JsError where
  message : String

/-- A thrown JavaScript value: either an `Error` instance or anything
else (`instanceof Error` fails on the latter). -/
inductive Thrown : Type where
  | jsError : JsError → Thrown
  | other : Thrown

/-- The HTTP response as `api.request` observes it: the `ok` flag, the
`statusText`, and the parsed JSON body. -/
structure HttpResponse where
  ok : Bool
  statusText : String
  body : Json

/-- The resolution of `api.request` once the response arrives: parse and
return the body when `response.ok`, otherwise throw
`new Error('API error: ' + response.statusText)` without touching the
body.  There is no retry: one response determines the outcome. -/
def requestResult (resp : HttpResponse) : Except JsError Json :=
  if resp.ok then .ok resp.body
  else .error ⟨"API error: " ++ resp.statusText⟩

/-- An endpoint helper of the `api` object: the endpoint string and the
`RequestInit` it passes to `api.request`. -/
structure ApiCall where
  endpoint : String
  options : RequestInit

/-- Whether a declared response field is optional (`?` in the TypeScript
type argument of `api.request<T>`). -/
structure FieldSpec where
  name : String
  optional : Bool

/-- `api.healthCheck()`: `GET /health`. -/
def api.healthCheck : ApiCall :=
  { endpoint := "/health", options := {} }

/-- The declared response type of `api.healthCheck`:
`{ status: string; service: string; version: string }`. -/
def api.healthCheckResponseFields : List FieldSpec :=
  [⟨"status", false⟩, ⟨"service", false⟩, ⟨"version", false⟩]

/-- `api.triggerAgents()`: `POST /api/agents/trigger`, no body. -/
def api.triggerAgents : ApiCall :=
  { endpoint := "/api/agents/trigger", options := { method := some "POST" } }

/-- The declared response type of `api.triggerAgents`:
`{ success: boolean; result: string; raw_response?: any }`. -/
def api.triggerAgentsResponseFields : List FieldSpec :=
  [⟨"success", false⟩, ⟨"result", false⟩, ⟨"raw_response", true⟩]

/-- `api.startAnalysis(prCount = 3)`: `POST /api/analysis/start` with body
`JSON.stringify({ pr_count: prCount })`. -/
def api.startAnalysis (prCount : Int := 3) : ApiCall :=
  { endpoint := "/api/analysis/start"
    options :=
      { method := some "POST"
        body := some (.obj [("pr_count", .num prCount)]) } }

/-- The declared response type of `api.startAnalysis`:
`{ status: string; message: string }`. -/
def api.startAnalysisResponseFields : List FieldSpec :=
  [⟨"status", false⟩, ⟨"message", false⟩]

/-- `api.getManagerReport()`: `GET /api/analysis/report`. -/
def api.getManagerReport : ApiCall :=
  { endpoint := "/api/analysis/report", options := {} }

/-- The declared response type of `api.getManagerReport`:
`{ report: any; timestamp: string; status: string }`. -/
def api.getManagerReportResponseFields : List FieldSpec :=
  [⟨"report", false⟩, ⟨"timestamp", false⟩, ⟨"status", false⟩]

/- ===================== useApi.ts ===================== -/

/-- The state of the `useApi` hook: `data`, `loading`, `error`. -/
structure UseApiState where
  data : Option Json
  loading : Bool
  error : Option JsError

/-- The hook's initial state: `useState<T|null>(null)`, `useState(true)`,
`useState<Error|null>(null)`. -/
def useApiInitialState : UseApiState :=
  { data := none, loading := true, error := none }

/-- `err instanceof Error ? err : new Error('Unknown error')`. -/
def wrapThrown : Thrown → JsError
  | .jsError e => e
  | .other => ⟨"Unknown error"⟩

/-- One run of `fetchData` inside `useApi`, given the state when the
request settles and the request's outcome: `setLoading(true)`; on success
`setData(result); setError(null)`; on failure `setError(wrapped)`; and in
`finally`, `setLoading(false)`. -/
def useApiFetch (s : UseApiState) (outcome : Except Thrown Json) : UseApiState :=
  match outcome with
  | .ok result => { s with data := some result, error := none, loading := false }
  | .error t => { s with error := some (wrapThrown t), loading := false }

/- ===================== Dashboard.tsx (named tree) ===================== -/

/-- The Dashboard view state touched by `handleTriggerAgents`. -/
structure DashboardState where
  isLoading : Bool
  prResult : Option String
  meetingResult : Option String
  managerResult : Option String
  error : Option String

/-- `{ success: boolean; result: string; raw_response?: any }` as consumed
by the handler (`response.result || ''` guards a missing/empty `result`). -/
structure TriggerResponse where
  success : Bool
  result : Option String

/-- `pat` occurs as a prefix of `l`. -/
def leadsWith : List Char → List Char → Bool
  | [], _ => true
  | _ :: _, [] => false
  | a :: as, b :: bs => a == b && leadsWith as bs

/-- `pat` occurs somewhere in `l` (JavaScript `String.prototype.includes`). -/
def listHas (pat : List Char) : List Char → Bool
  | [] => leadsWith pat []
  | l@(_ :: rest) => leadsWith pat l || listHas pat rest

/-- `s.includes(pat)`. -/
def strHas (s pat : String) : Bool := listHas pat.toList s.toList

/-- `handleTriggerAgents` from `src/frontend/src/pages/Dashboard.tsx`,
as a function of the prior state and the outcome of `api.triggerAgents()`:
set loading, clear the error and the three results, then either parse the
result text for "hello world" / "world hello" (success) or record the
caught message (failure), and finally clear loading. -/
def handleTriggerAgents (s : DashboardState) (outcome : Except Thrown TriggerResponse) :
    DashboardState :=
  let s1 : DashboardState :=
    { s with isLoading := true, error := none,
             prResult := none, meetingResult := none, managerResult := none }
  match outcome with
  | .ok response =>
      let resultText := response.result.getD ""
      let lowerText := resultText.toLower
      let hasHW := strHas lowerText "hello world"
      let hasWH := strHas lowerText "world hello"
      let s2 := if hasHW then
        { s1 with prResult := some "hello world", meetingResult := some "hello world" }
        else s1
      let s3 := if hasWH then { s2 with managerResult := some "world hello" } else s2
      let s4 := if !hasHW && !hasWH then { s3 with prResult := some resultText } else s3
      { s4 with isLoading := false }
  | .error t =>
      { s1 with
        error := some (match t with
          | .jsError e => e.message
          | .other => "Failed to trigger agents")
        isLoading := false }

/- ============ Report-enabled Dashboard (unnamed part_001) ============ -/

/-- The report-related view state of the report-enabled Dashboard. -/
structure ReportDashState where
  isLoadingReport : Bool
  report : Option Json
  reportError : Option String

/-- `handleGetReport`: set loading, clear `reportError` and `report`, then
on success store the fetched data, on failure store the caught message
(`'Failed to fetch report'` when the thrown value is not an `Error`), and
finally clear loading. -/
def handleGetReport (s : ReportDashState) (outcome : Except Thrown Json) :
    ReportDashState :=
  let s1 : ReportDashState :=
    { s with isLoadingReport := true, reportError := none, report := none }
  match outcome with
  | .ok reportData =>
      { s1 with report := some reportData, isLoadingReport := false }
  | .error t =>
      { s1 with
        reportError := some (match t with
          | .jsError e => e.message
          | .other => "Failed to fetch report")
        isLoadingReport := false }

/- ============ useBackendHealth (spec-modelled) + Layout.tsx ============ -/

/-- The three hook statuses consumed by `Layout.tsx` and the Dashboards. -/
inductive HealthStatus : Type where
  | checking : HealthStatus
  | healthy : HealthStatus
  | unhealthy : HealthStatus
deriving DecidableEq

/-- Modelled from the spec: the `useBackendHealth` hook is not among the
provided sources (only its callers are); per the spec the frontend uses
"periodic polling every 5 seconds for health". -/
def healthPollIntervalMs : Nat := 5000

/-- Modelled from the spec: the hook polls `GET /health`. -/
def healthEndpoint : String := "/health"

/-- Modelled from the spec: the hook starts in the `checking` state. -/
def initialHealthStatus : HealthStatus := .checking

/-- Modelled from the spec: one completed poll of `/health` — a 200/ok
response makes the status `healthy`, a failed poll makes it `unhealthy`. -/
def stepHealth (_s : HealthStatus) (ok : Bool) : HealthStatus :=
  if ok then .healthy else .unhealthy

/-- The status after a sequence of completed polls. -/
def healthAfterPolls (polls : List Bool) : HealthStatus :=
  polls.foldl stepHealth initialHealthStatus

/-- The indicator-dot class from `Layout.tsx`: green for `healthy`,
pulsing yellow for `checking`, red otherwise. -/
def healthDotClass : HealthStatus → String
  | .healthy => "bg-green-500"
  | .checking => "bg-yellow-500 animate-pulse"
  | .unhealthy => "bg-red-500"

/-- The indicator label from `Layout.tsx`. -/
def healthLabel : HealthStatus → String
  | .healthy => "Backend"
  | .checking => "Checking..."
  | .unhealthy => "Backend Offline"

/- ===================== router.tsx ===================== -/

/-- The five page components of the single-page application. -/
inductive Page : Type where
  | dashboard : Page
  | interns : Page
  | teamMembers : Page
  | managers : Page
  | notFound : Page
deriving DecidableEq

/-- One entry of the `RouteConfig[]` table. -/
structure Route where
  path : String
  component : Page

/-- `router` from `src/frontend/src/app/router.tsx`, in source order. -/
def router : List Route :=
  [ ⟨"/", .dashboard⟩
  , ⟨"/interns", .interns⟩
  , ⟨"/team-members", .teamMembers⟩
  , ⟨"/managers", .managers⟩
  , ⟨"*", .notFound⟩ ]

/-- Whether a route pattern matches a browser path: the table uses only
literal paths plus the catch-all `*`. -/
def routeMatches (pat path : String) : Bool :=
  pat == "*" || pat == path

/-- The component rendered for a path: the matching route (the catch-all
being last, an exact match wins). -/
def matchRoute (path : String) : Option Page :=
  (router.find? (fun rt => routeMatches rt.path path)).map Route.component

/-- Backend endpoints invoked by `Layout.tsx`: the health hook. -/
def layoutEndpoints : List String := [healthEndpoint]

/-- Backend endpoints invoked by each page of the named tree: the
Dashboard uses the health hook and `api.triggerAgents`; the remaining
pages render static content.  (Modelled from the spec for `Interns` and
`NotFound`, whose sources are not provided: the spec describes all pages
other than the Dashboard as static marketing-style content.) -/
def pageEndpoints : Page → List String
  | .dashboard => [healthEndpoint, "/api/agents/trigger"]
  | .interns => []
  | .teamMembers => []
  | .managers => []
  | .notFound => []

/-- All distinct backend endpoints the single-page application can invoke,
across the layout and every routed page. -/
def appEndpoints : List String :=
  (layoutEndpoints ++ (router.map Route.component).flatMap pageEndpoints).dedup

/- ========== Manager-Report section renderer (unnamed part_001) ========== -/

/-- The `{report.timestamp && ...}` block: one property read; the
`new Date(...).toLocaleString()` rendering is total. -/
def tsBlock (r : Json) : Except Unit Unit := do
  let _ ← pget (some r) "timestamp"
  .ok ()

/-- The Executive Summary block: guard
`report.report?.report?.executive_summary`, then render
`report.report.report.executive_summary` as text. -/
def execBlock (r : Json) : Except Unit Unit := do
  let a ← pget (some r) "report"
  if truthy (oget (oget a "report") "executive_summary") then do
    let a2 ← pget (some r) "report"
    let b2 ← pget a2 "report"
    let _ ← pget b2 "executive_summary"
    .ok ()
  else .ok ()

/-- The PR Insights block: guard `report.report?.report?.pr_insights`,
then read six counters `report.report.report.pr_insights.<k> || 0`.
(The component re-evaluates the access chain for each counter; the chain
is pure, so it is read once here.) -/
def prInsightsBlock (r : Json) : Except Unit Unit := do
  let a ← pget (some r) "report"
  if truthy (oget (oget a "report") "pr_insights") then do
    let a2 ← pget (some r) "report"
    let b2 ← pget a2 "report"
    let pi ← pget b2 "pr_insights"
    let _ ← pget pi "total_prs"
    let _ ← pget pi "total_files_changed"
    let _ ← pget pi "high_complexity_count"
    let _ ← pget pi "high_risk_count"
    let _ ← pget pi "total_additions"
    let _ ← pget pi "total_deletions"
    .ok ()
  else .ok ()

/-- The Meeting Insights block: guard
`report.report?.report?.meeting_insights`, then read four counters. -/
def meetInsightsBlock (r : Json) : Except Unit Unit := do
  let a ← pget (some r) "report"
  if truthy (oget (oget a "report") "meeting_insights") then do
    let a2 ← pget (some r) "report"
    let b2 ← pget a2 "report"
    let mi ← pget b2 "meeting_insights"
    let _ ← pget mi "documents_analyzed"
    let _ ← pget mi "total_action_items"
    let _ ← pget mi "total_decisions"
    let _ ← pget mi "total_attendees"
    .ok ()
  else .ok ()

/-- The Recommendations block: guard
`report.report?.report?.recommendations &&
 report.report.report.recommendations.length > 0`, then
`report.report.report.recommendations.map(rec => ...)` rendering each
element as text. -/
def recsBlock (r : Json) : Except Unit Unit := do
  let a ← pget (some r) "report"
  if truthy (oget (oget a "report") "recommendations") then do
    let a2 ← pget (some r) "report"
    let b2 ← pget a2 "report"
    let recs ← pget b2 "recommendations"
    let len ← pget recs "length"
    if gtZero len then do
      let a3 ← pget (some r) "report"
      let b3 ← pget a3 "report"
      let recs3 ← pget b3 "recommendations"
      jmapRender recs3 (fun _rec => .ok ())
    else .ok ()
  else .ok ()

/-- The Action Items block: same pattern as Recommendations, plus the
badge rendering `report.report.report.action_items.length`. -/
def actionsBlock (r : Json) : Except Unit Unit := do
  let a ← pget (some r) "report"
  if truthy (oget (oget a "report") "action_items") then do
    let a2 ← pget (some r) "report"
    let b2 ← pget a2 "report"
    let ai ← pget b2 "action_items"
    let len ← pget ai "length"
    if gtZero len then do
      let a3 ← pget (some r) "report"
      let b3 ← pget a3 "report"
      let ai3 ← pget b3 "action_items"
      let _ ← pget ai3 "length"
      jmapRender ai3 (fun _item => .ok ())
    else .ok ()
  else .ok ()

/-- One PR summary card: reads `url`, `pr_number`, `title`, `complexity`,
`risk_level`, `summary`, then the guarded
`patch_analysis && patch_analysis.features_detected &&
 patch_analysis.features_detected.length > 0 && ....map(...)` block. -/
def prSummaryItem (e : Json) : Except Unit Unit := do
  let _ ← pget (some e) "url"
  let _ ← pget (some e) "pr_number"
  let _ ← pget (some e) "title"
  let _ ← pget (some e) "complexity"
  let _ ← pget (some e) "risk_level"
  let _ ← pget (some e) "summary"
  let pa ← pget (some e) "patch_analysis"
  if truthy pa then do
    let pa2 ← pget (some e) "patch_analysis"
    let fd ← pget pa2 "features_detected"
    if truthy fd then do
      let pa3 ← pget (some e) "patch_analysis"
      let fd3 ← pget pa3 "features_detected"
      let len ← pget fd3 "length"
      if gtZero len then do
        let pa4 ← pget (some e) "patch_analysis"
        let fd4 ← pget pa4 "features_detected"
        jmapRender fd4 (fun _feature => .ok ())
      else .ok ()
    else .ok ()
  else .ok ()

/-- The Detailed PR Summaries block: guard, `length > 0`, then map
`prSummaryItem` over the array. -/
def dpsBlock (r : Json) : Except Unit Unit := do
  let a ← pget (some r) "report"
  if truthy (oget (oget a "report") "detailed_pr_summaries") then do
    let a2 ← pget (some r) "report"
    let b2 ← pget a2 "report"
    let dps ← pget b2 "detailed_pr_summaries"
    let len ← pget dps "length"
    if gtZero len then do
      let a3 ← pget (some r) "report"
      let b3 ← pget a3 "report"
      let dps3 ← pget b3 "detailed_pr_summaries"
      jmapRender dps3 prSummaryItem
    else .ok ()
  else .ok ()

/-- One meeting summary card: reads `doc_url` and `summary`, then the
guarded `action_items && action_items.length > 0 &&
 action_items.slice(0, 5).map(...)` block. -/
def meetingSummaryItem (e : Json) : Except Unit Unit := do
  let _ ← pget (some e) "doc_url"
  let _ ← pget (some e) "summary"
  let ai ← pget (some e) "action_items"
  if truthy ai then do
    let ai2 ← pget (some e) "action_items"
    let len ← pget ai2 "length"
    if gtZero len then do
      let ai3 ← pget (some e) "action_items"
      jsliceMapRender ai3 5 (fun _item => .ok ())
    else .ok ()
  else .ok ()

/-- The Detailed Meeting Summaries block. -/
def dmsBlock (r : Json) : Except Unit Unit := do
  let a ← pget (some r) "report"
  if truthy (oget (oget a "report") "detailed_meeting_summaries") then do
    let a2 ← pget (some r) "report"
    let b2 ← pget a2 "report"
    let dms ← pget b2 "detailed_meeting_summaries"
    let len ← pget dms "length"
    if gtZero len then do
      let a3 ← pget (some r) "report"
      let b3 ← pget a3 "report"
      let dms3 ← pget b3 "detailed_meeting_summaries"
      jmapRender dms3 meetingSummaryItem
    else .ok ()
  else .ok ()

/-- The `{!report.report?.report && <pre>JSON.stringify(report)</pre>}`
fallback: `JSON.stringify` is total, only the guard accesses matter. -/
def fallbackBlock (r : Json) : Except Unit Unit := do
  let a ← pget (some r) "report"
  if truthy (oget a "report") then .ok ()
  else .ok ()

/-- Rendering the whole `{report && ( ... )}` section of the
report-enabled Dashboard for the `report` state value `r`: each JSX block
is evaluated top to bottom, and the first thrown TypeError aborts the
render.  A falsy `report` state does not render the section at all. -/
def renderReportSection (r : Json) : Except Unit Unit :=
  if truthy (some r) then do
    tsBlock r
    execBlock r
    prInsightsBlock r
    meetInsightsBlock r
    recsBlock r
    actionsBlock r
    dpsBlock r
    dmsBlock r
    fallbackBlock r
  else .ok ()

/-- A list field of the report is shape-safe for mapping when it is an
array or not truthy at all. -/
def arrOk (v : Jv) : Bool :=
  match v with
  | some (.arr _) => true
  | _ => !truthy v

/-- Shape-safety of one `detailed_pr_summaries` element: a non-null value
whose `patch_analysis.features_detected`, when the patch analysis is
truthy, is an array or not truthy. -/
def prElemOk (e : Json) : Bool :=
  match e with
  | .null => false
  | _ =>
    let pa := oget (some e) "patch_analysis"
    !truthy pa || arrOk (oget pa "features_detected")

/-- Shape-safety of one `detailed_meeting_summaries` element: a non-null
value whose `action_items` is an array or not truthy. -/
def meetElemOk (e : Json) : Bool :=
  match e with
  | .null => false
  | _ => arrOk (oget (some e) "action_items")

/-- A summary-list field is shape-safe when it is an array of shape-safe
elements or not truthy at all. -/
def listShapeOk (elemOk : Json → Bool) (v : Jv) : Bool :=
  match v with
  | some (.arr xs) => xs.all elemOk
  | _ => !truthy v

/-- A report value is well-shaped when the four list fields of the nested
report object `report.report?.report` (and the list fields nested inside
their elements) are arrays wherever the UI would map over them. -/
def wellShaped (r : Json) : Bool :=
  arrOk (oget (oget (oget (some r) "report") "report") "recommendations") &&
  arrOk (oget (oget (oget (some r) "report") "report") "action_items") &&
  listShapeOk prElemOk (oget (oget (oget (some r) "report") "report") "detailed_pr_summaries") &&
  listShapeOk meetElemOk (oget (oget (oget (some r) "report") "report") "detailed_meeting_summaries")

/-- A syntactically possible `getManagerReport` response whose nested
report object carries `recommendations: "ab"` — truthy, with
`length = 2 > 0`, but not an array. -/
def cexReport : Json :=
  .obj [("report", .obj [("report", .obj [("recommendations", .str "ab")])])]

/-- A well-shaped report value exercising every section. -/
def okReport : Json :=
  .obj
    [ ("report", .obj
        [ ("report", .obj
            [ ("executive_summary", .str "All good")
            , ("pr_insights", .obj [("total_prs", .num 2)])
            , ("meeting_insights", .obj [("documents_analyzed", .num 1)])
            , ("recommendations", .arr [.str "ship it"])
            , ("action_items", .arr [.str "review"])
            , ("detailed_pr_summaries", .arr
                [ .obj
                    [ ("pr_number", .num 1)
                    , ("title", .str "Fix")
                    , ("summary", .str "s")
                    , ("patch_analysis", .obj
                        [("features_detected", .arr [.str "f"])]) ] ])
            , ("detailed_meeting_summaries", .arr
                [ .obj
                    [ ("summary", .str "m")
                    , ("action_items", .arr [.str "a"]) ] ]) ]) ])
    , ("timestamp", .str "2024-01-01T00:00:00Z")
    , ("status", .str "complete") ]

/- ===================== Helper lemmas ===================== -/

/-- Bind on a successful `Except` computation runs the continuation. -/
theorem ok_bind {α β : Type} (a : α) (f : α → Except Unit β) :
    (Except.ok a >>= f : Except Unit β) = f a := rfl

/-- A truthy value is neither `undefined` nor `null`. -/
theorem isNN_of_truthy {v : Jv} (h : truthy v = true) : isNN v = true := by
  cases v with
  | none => simp [truthy] at h
  | some j => cases j <;> simp_all [truthy, isNN]

/-- On a non-nullish receiver, plain access succeeds and agrees with
optional chaining. -/
theorem pget_eq_oget {v : Jv} (h : isNN v = true) (k : String) :
    pget v k = .ok (oget v k) := by
  cases v with
  | none => simp [isNN] at h
  | some j => cases j <;> simp_all [isNN, pget, oget]

/-- A truthy chained read means the receiver was non-nullish. -/
theorem isNN_of_oget_truthy {v : Jv} {k : String} (h : truthy (oget v k) = true) :
    isNN v = true := by
  cases v with
  | none => simp [oget, truthy] at h
  | some j => cases j <;> simp_all [oget, truthy, isNN]

/-- A non-nullish chained read means the receiver was non-nullish. -/
theorem isNN_of_isNN_oget {v : Jv} {k : String} (h : isNN (oget v k) = true) :
    isNN v = true := by
  cases v with
  | none => simp [oget, isNN] at h
  | some j => cases j <;> simp_all [oget, isNN]

/-- A truthy shape-safe list field is an array. -/
theorem arr_of_arrOk_truthy {v : Jv} (h1 : arrOk v = true) (h2 : truthy v = true) :
    ∃ xs, v = some (.arr xs) := by
  cases v with
  | none => simp [truthy] at h2
  | some j =>
    cases j with
    | arr xs => exact ⟨xs, rfl⟩
    | null => simp [truthy] at h2
    | bool b => simp [arrOk, truthy] at h1 h2; simp [h2] at h1
    | num n => simp [arrOk, truthy] at h1 h2; simp [h2] at h1
    | str s => simp [arrOk, truthy] at h1 h2; simp [h2] at h1
    | obj fs => simp [arrOk, truthy] at h1

/-- A truthy shape-safe summary list is an array of shape-safe elements. -/
theorem listShape_arr {elemOk : Json → Bool} {v : Jv}
    (h1 : listShapeOk elemOk v = true) (h2 : truthy v = true) :
    ∃ xs, v = some (.arr xs) ∧ xs.all elemOk = true := by
  cases v with
  | none => simp [truthy] at h2
  | some j =>
    cases j with
    | arr xs => exact ⟨xs, rfl, h1⟩
    | null => simp [truthy] at h2
    | bool b => simp [listShapeOk, truthy] at h1 h2; simp [h2] at h1
    | num n => simp [listShapeOk, truthy] at h1 h2; simp [h2] at h1
    | str s => simp [listShapeOk, truthy] at h1 h2; simp [h2] at h1
    | obj fs => simp [listShapeOk, truthy] at h1

/-- A per-element renderer that succeeds on every element succeeds on the
whole list. -/
theorem jseqAll_ok {f : Json → Except Unit Unit} {xs : List Json}
    (h : ∀ x ∈ xs, f x = .ok ()) : jseqAll f xs = .ok () := by
  induction xs with
  | nil => rfl
  | cons x rest ih =>
    have hx := h x (List.mem_cons_self x rest)
    simp [jseqAll, hx, ok_bind]
    exact ih (fun y hy => h y (List.mem_cons_of_mem x hy))

theorem tsBlock_ok {r : Json} (h : isNN (some r) = true) : tsBlock r = .ok () := by
  simp only [tsBlock, pget_eq_oget h, ok_bind]

theorem execBlock_ok {r : Json} (h : isNN (some r) = true) : execBlock r = .ok () := by
  simp only [execBlock, pget_eq_oget h, ok_bind]
  cases hg : truthy (oget (oget (oget (some r) "report") "report") "executive_summary") with
  | false => simp [hg]
  | true =>
    have hb : isNN (oget (oget (some r) "report") "report") = true := isNN_of_oget_truthy hg
    have ha : isNN (oget (some r) "report") = true := isNN_of_isNN_oget hb
    simp [hg, pget_eq_oget ha, pget_eq_oget hb, ok_bind]

theorem prInsightsBlock_ok {r : Json} (h : isNN (some r) = true) :
    prInsightsBlock r = .ok () := by
  simp only [prInsightsBlock, pget_eq_oget h, ok_bind]
  cases hg : truthy (oget (oget (oget (some r) "report") "report") "pr_insights") with
  | false => simp [hg]
  | true =>
    have hb : isNN (oget (oget (some r) "report") "report") = true := isNN_of_oget_truthy hg
    have ha : isNN (oget (some r) "report") = true := isNN_of_isNN_oget hb
    have hp : isNN (oget (oget (oget (some r) "report") "report") "pr_insights") = true :=
      isNN_of_truthy hg
    simp [hg, pget_eq_oget ha, pget_eq_oget hb, pget_eq_oget hp, ok_bind]

theorem meetInsightsBlock_ok {r : Json} (h : isNN (some r) = true) :
    meetInsightsBlock r = .ok () := by
  simp only [meetInsightsBlock, pget_eq_oget h, ok_bind]
  cases hg : truthy (oget (oget (oget (some r) "report") "report") "meeting_insights") with
  | false => simp [hg]
  | true =>
    have hb : isNN (oget (oget (some r) "report") "report") = true := isNN_of_oget_truthy hg
    have ha : isNN (oget (some r) "report") = true := isNN_of_isNN_oget hb
    have hp : isNN (oget (oget (oget (some r) "report") "report") "meeting_insights") = true :=
      isNN_of_truthy hg
    simp [hg, pget_eq_oget ha, pget_eq_oget hb, pget_eq_oget hp, ok_bind]

theorem recsBlock_ok {r : Json} (h : isNN (some r) = true)
    (hW : arrOk (oget (oget (oget (some r) "report") "report") "recommendations") = true) :
    recsBlock r = .ok () := by
  simp only [recsBlock, pget_eq_oget h, ok_bind]
  cases hg : truthy (oget (oget (oget (some r) "report") "report") "recommendations") with
  | false => simp [hg]
  | true =>
    have hb : isNN (oget (oget (some r) "report") "report") = true := isNN_of_oget_truthy hg
    have ha : isNN (oget (some r) "report") = true := isNN_of_isNN_oget hb
    obtain ⟨xs, hxs⟩ := arr_of_arrOk_truthy hW hg
    simp only [hg, pget_eq_oget ha, pget_eq_oget hb, hxs, ok_bind, if_true]
    simp [pget, jmapRender, ok_bind, jseqAll_ok (f := fun _ => Except.ok ())
      (fun _ _ => rfl)]

theorem actionsBlock_ok {r : Json} (h : isNN (some r) = true)
    (hW : arrOk (oget (oget (oget (some r) "report") "report") "action_items") = true) :
    actionsBlock r = .ok () := by
  simp only [actionsBlock, pget_eq_oget h, ok_bind]
  cases hg : truthy (oget (oget (oget (some r) "report") "report") "action_items") with
  | false => simp [hg]
  | true =>
    have hb : isNN (oget (oget (some r) "report") "report") = true := isNN_of_oget_truthy hg
    have ha : isNN (oget (some r) "report") = true := isNN_of_isNN_oget hb
    obtain ⟨xs, hxs⟩ := arr_of_arrOk_truthy hW hg
    simp only [hg, pget_eq_oget ha, pget_eq_oget hb, hxs, ok_bind, if_true]
    simp [pget, jmapRender, ok_bind, jseqAll_ok (f := fun _ => Except.ok ())
      (fun _ _ => rfl)]

/-- Unpacking `prElemOk`: the element is non-null, and a truthy
`patch_analysis` has a shape-safe `features_detected`. -/
theorem prElemOk_spec {e : Json} (h : prElemOk e = true) :
    isNN (some e) = true ∧
      (truthy (oget (some e) "patch_analysis") = true →
        arrOk (oget (oget (some e) "patch_analysis") "features_detected") = true) := by
  cases e with
  | null => simp [prElemOk] at h
  | bool b => exact ⟨rfl, fun hpa => by simpa [prElemOk, hpa] using h⟩
  | num n => exact ⟨rfl, fun hpa => by simpa [prElemOk, hpa] using h⟩
  | str s => exact ⟨rfl, fun hpa => by simpa [prElemOk, hpa] using h⟩
  | arr xs => exact ⟨rfl, fun hpa => by simpa [prElemOk, hpa] using h⟩
  | obj fs => exact ⟨rfl, fun hpa => by simpa [prElemOk, hpa] using h⟩

theorem prSummaryItem_ok {e : Json} (h : prElemOk e = true) :
    prSummaryItem e = .ok () := by
  obtain ⟨hnn, hfd⟩ := prElemOk_spec h
  simp only [prSummaryItem, pget_eq_oget hnn, ok_bind]
  cases hpa : truthy (oget (some e) "patch_analysis") with
  | false => simp [hpa]
  | true =>
    have hpaNN : isNN (oget (some e) "patch_analysis") = true := isNN_of_truthy hpa
    have hA := hfd hpa
    simp only [hpa, pget_eq_oget hpaNN, ok_bind, if_true]
    cases hfdT : truthy (oget (oget (some e) "patch_analysis") "features_detected") with
    | false => simp [hfdT]
    | true =>
      have hfdNN : isNN (oget (oget (some e) "patch_analysis") "features_detected") = true :=
        isNN_of_truthy hfdT
      obtain ⟨xs, hxs⟩ := arr_of_arrOk_truthy hA hfdT
      simp only [hfdT, pget_eq_oget hfdNN, hxs, ok_bind, if_true]
      simp [pget, jmapRender, ok_bind, jseqAll_ok (f := fun _ => Except.ok ())
        (fun _ _ => rfl)]

theorem dpsBlock_ok {r : Json} (h : isNN (some r) = true)
    (hW : listShapeOk prElemOk
      (oget (oget (oget (some r) "report") "report") "detailed_pr_summaries") = true) :
    dpsBlock r = .ok () := by
  simp only [dpsBlock, pget_eq_oget h, ok_bind]
  cases hg : truthy (oget (oget (oget (some r) "report") "report") "detailed_pr_summaries") with
  | false => simp [hg]
  | true =>
    have hb : isNN (oget (oget (some r) "report") "report") = true := isNN_of_oget_truthy hg
    have ha : isNN (oget (some r) "report") = true := isNN_of_isNN_oget hb
    obtain ⟨xs, hxs, hall⟩ := listShape_arr hW hg
    have helems : ∀ x ∈ xs, prSummaryItem x = Except.ok () := by
      intro x hx
      exact prSummaryItem_ok (List.all_eq_true.mp hall x hx)
    simp only [hg, pget_eq_oget ha, pget_eq_oget hb, hxs, ok_bind, if_true]
    simp [pget, jmapRender, ok_bind, jseqAll_ok helems]

/-- Unpacking `meetElemOk`: the element is non-null with a shape-safe
`action_items`. -/
theorem meetElemOk_spec {e : Json} (h : meetElemOk e = true) :
    isNN (some e) = true ∧ arrOk (oget (some e) "action_items") = true := by
  cases e <;> simp_all [meetElemOk, isNN]

theorem meetingSummaryItem_ok {e : Json} (h : meetElemOk e = true) :
    meetingSummaryItem e = .ok () := by
  obtain ⟨hnn, hA⟩ := meetElemOk_spec h
  simp only [meetingSummaryItem, pget_eq_oget hnn, ok_bind]
  cases hai : truthy (oget (some e) "action_items") with
  | false => simp [hai]
  | true =>
    obtain ⟨xs, hxs⟩ := arr_of_arrOk_truthy hA hai
    simp only [hai, hxs, ok_bind, if_true]
    simp [pget, jsliceMapRender, ok_bind, jseqAll_ok (f := fun _ => Except.ok ())
      (fun _ _ => rfl)]

theorem dmsBlock_ok {r : Json} (h : isNN (some r) = true)
    (hW : listShapeOk meetElemOk
      (oget (oget (oget (some r) "report") "report") "detailed_meeting_summaries") = true) :
    dmsBlock r = .ok () := by
  simp only [dmsBlock, pget_eq_oget h, ok_bind]
  cases hg : truthy (oget (oget (oget (some r) "report") "report") "detailed_meeting_summaries") with
  | false => simp [hg]
  | true =>
    have hb : isNN (oget (oget (some r) "report") "report") = true := isNN_of_oget_truthy hg
    have ha : isNN (oget (some r) "report") = true := isNN_of_isNN_oget hb
    obtain ⟨xs, hxs, hall⟩ := listShape_arr hW hg
    have helems : ∀ x ∈ xs, meetingSummaryItem x = Except.ok () := by
      intro x hx
      exact meetingSummaryItem_ok (List.all_eq_true.mp hall x hx)
    simp only [hg, pget_eq_oget ha, pget_eq_oget hb, hxs, ok_bind, if_true]
    simp [pget, jmapRender, ok_bind, jseqAll_ok helems]

theorem fallbackBlock_ok {r : Json} (h : isNN (some r) = true) :
    fallbackBlock r = .ok () := by
  simp only [fallbackBlock, pget_eq_oget h, ok_bind]
  cases hg : truthy (oget (oget (some r) "report") "report") <;> simp [hg]

/-- `List.find?` over a list with one appended element. -/
theorem find?_append_one {α : Type} (l : List α) (p : α → Bool) (a : α) :
    (l ++ [a]).find? p = ((l.find? p).orElse (fun _ => [a].find? p)) := by
  induction l with
  | nil => simp [List.find?]
  | cons b bs ih =>
    cases hb : p b <;> simp [List.find?, hb, ih]

/-- A later binding of the same key wins over the head binding. -/
theorem lookupLast_cons_hit {α : Type} (d : α) (k : String) (hs : List (String × α)) :
    lookupLast ((k, d) :: hs) k = some ((lookupLast hs k).getD d) := by
  unfold lookupLast
  rw [show ((k, d) :: hs).reverse = hs.reverse ++ [(k, d)] by simp]
  rw [find?_append_one]
  cases hf : hs.reverse.find? (fun p => p.1 == k) with
  | none => simp [hf, Option.orElse, List.find?]
  | some v => simp [hf, Option.orElse]

/-- The head binding is invisible for other keys. -/
theorem lookupLast_cons_miss {α : Type} (d : α) (k0 k : String) (h : k ≠ k0)
    (hs : List (String × α)) :
    lookupLast ((k0, d) :: hs) k = lookupLast hs k := by
  unfold lookupLast
  rw [show ((k0, d) :: hs).reverse = hs.reverse ++ [(k0, d)] by simp]
  rw [find?_append_one]
  cases hf : hs.reverse.find? (fun p => p.1 == k) with
  | none =>
    have hk : (k0 == k) = false := beq_eq_false_iff_ne.mpr (Ne.symm h)
    simp [hf, Option.orElse, List.find?, hk]
  | some v => simp [hf, Option.orElse]

/- ===================== Claim theorems ===================== -/

/-- C1: the frontend API service implements exactly the four backend
endpoints with the stated methods, request bodies, and declared response
shapes: `healthCheck` is `GET /health` yielding `{status, service, version}`;
`triggerAgents` is `POST /api/agents/trigger` yielding
`{success, result, raw_response?}`; `startAnalysis(prCount)` is
`POST /api/analysis/start` with JSON body `{pr_count: prCount}` and
`prCount` defaulting to 3 when omitted, yielding `{status, message}`;
`getManagerReport` is `GET /api/analysis/report` yielding
`{report, timestamp, status}`. -/
theorem api_endpoints_spec :
    api.healthCheck.endpoint = "/health" ∧
    effectiveMethod api.healthCheck.options = "GET" ∧
    api.healthCheck.options.body = none ∧
    api.healthCheckResponseFields =
      [⟨"status", false⟩, ⟨"service", false⟩, ⟨"version", false⟩] ∧
    api.triggerAgents.endpoint = "/api/agents/trigger" ∧
    effectiveMethod api.triggerAgents.options = "POST" ∧
    api.triggerAgents.options.body = none ∧
    api.triggerAgentsResponseFields =
      [⟨"success", false⟩, ⟨"result", false⟩, ⟨"raw_response", true⟩] ∧
    (∀ n : Int, (api.startAnalysis n).endpoint = "/api/analysis/start" ∧
      effectiveMethod (api.startAnalysis n).options = "POST" ∧
      (api.startAnalysis n).options.body = some (.obj [("pr_count", .num n)])) ∧
    api.startAnalysis = api.startAnalysis 3 ∧
    api.startAnalysisResponseFields = [⟨"status", false⟩, ⟨"message", false⟩] ∧
    api.getManagerReport.endpoint = "/api/analysis/report" ∧
    effectiveMethod api.getManagerReport.options = "GET" ∧
    api.getManagerReportResponseFields =
      [⟨"report", false⟩, ⟨"timestamp", false⟩, ⟨"status", false⟩] :=
  ⟨rfl, rfl, rfl, rfl, rfl, rfl, rfl, rfl, fun _ => ⟨rfl, rfl, rfl⟩,
   rfl, rfl, rfl, rfl, rfl⟩

/-- C2: `api.request` resolves with the parsed JSON body exactly when the
response has `ok = true`, and otherwise throws an `Error` whose message is
`'API error: '` followed by the response's `statusText`; there is no other
error classification and no retry. -/
theorem api_request_resolution (resp : HttpResponse) :
    (∀ j : Json, requestResult resp = Except.ok j ↔ resp.ok = true ∧ j = resp.body) ∧
    (resp.ok = false →
      requestResult resp = Except.error ⟨"API error: " ++ resp.statusText⟩) := by
  constructor
  · intro j
    constructor
    · intro hj
      cases hok : resp.ok with
      | true =>
        rw [requestResult, hok] at hj
        simp at hj
        exact ⟨rfl, hj.symm⟩
      | false =>
        rw [requestResult, hok] at hj
        simp at hj
    · rintro ⟨hok, rfl⟩
      simp [requestResult, hok]
  · intro hok
    simp [requestResult, hok]

/-- Witness for C2: a 200-style response resolves with its body, and a
404-style response throws `API error: Not Found`. -/
theorem api_request_resolution_witness :
    requestResult ⟨true, "OK", .obj []⟩ = Except.ok (.obj []) ∧
    requestResult ⟨false, "Not Found", .null⟩ =
      Except.error ⟨"API error: Not Found"⟩ :=
  ⟨((api_request_resolution ⟨true, "OK", .obj []⟩).1 (.obj [])).mpr ⟨rfl, rfl⟩,
   (api_request_resolution ⟨false, "Not Found", .null⟩).2 rfl⟩

/-- C3 (counterexample): rendering the report section is NOT total for
every JSON value `getManagerReport` can return — on
`{"report": {"report": {"recommendations": "ab"}}}` the guard
`recommendations && recommendations.length > 0` passes (a string is truthy
with length 2), and `recommendations.map` then throws a TypeError. -/
theorem renderReport_not_total_cex :
    renderReportSection cexReport = Except.error () := rfl

/-- C3 (amended): each optional report field is read only under an
optional-chaining (or `&&`) guard that its container exists, and a report
without the nested `report.report` object falls back to the raw-JSON
rendering; rendering is total for every report value whose mapped list
fields (`recommendations`, `action_items`, `detailed_pr_summaries`,
`detailed_meeting_summaries`, and the nested `features_detected` and
per-meeting `action_items`), when present and truthy, are arrays with
non-null summary elements — but not for arbitrary JSON values. -/
theorem renderReport_total_of_wellShaped (r : Json) (h : wellShaped r = true) :
    renderReportSection r = .ok () := by
  unfold renderReportSection
  cases ht : truthy (some r) with
  | false => simp [ht]
  | true =>
    have hnn : isNN (some r) = true := isNN_of_truthy ht
    simp only [wellShaped, Bool.and_eq_true] at h
    obtain ⟨⟨⟨h1, h2⟩, h3⟩, h4⟩ := h
    simp [ht, tsBlock_ok hnn, execBlock_ok hnn, prInsightsBlock_ok hnn,
      meetInsightsBlock_ok hnn, recsBlock_ok hnn h1, actionsBlock_ok hnn h2,
      dpsBlock_ok hnn h3, dmsBlock_ok hnn h4, fallbackBlock_ok hnn, ok_bind]

/-- Witness for C3 (amended): a fully populated well-shaped report renders
without faulting. -/
theorem renderReport_total_witness :
    wellShaped okReport = true ∧ renderReportSection okReport = Except.ok () :=
  ⟨by decide, renderReport_total_of_wellShaped okReport (by decide)⟩

/-- C4: whenever the Dashboard's trigger-agents action fails, the error
state is set to the caught exception's message (or the generic fallback
when the thrown value is not an `Error`), the three agent result messages
remain cleared, and the loading flag is `false` once the call settles —
whether it succeeded or failed; no retry occurs (the handler consumes a
single outcome). -/
theorem handleTriggerAgents_failure_spec (s : DashboardState)
    (outcome : Except Thrown TriggerResponse) :
    (handleTriggerAgents s outcome).isLoading = false ∧
    (∀ t, outcome = Except.error t →
      handleTriggerAgents s outcome =
        { isLoading := false, prResult := none, meetingResult := none,
          managerResult := none,
          error := some (match t with
            | Thrown.jsError e => e.message
            | Thrown.other => "Failed to trigger agents") }) := by
  constructor
  · cases outcome <;> rfl
  · rintro t rfl
    rfl

/-- Witness for C4: a thrown `Error("boom")` leaves the three results
cleared, the error set to "boom", and loading `false`. -/
theorem handleTriggerAgents_failure_witness :
    handleTriggerAgents ⟨false, some "x", some "y", some "z", none⟩
        (Except.error (Thrown.jsError ⟨"boom"⟩)) =
      { isLoading := false, prResult := none, meetingResult := none,
        managerResult := none, error := some "boom" } :=
  (handleTriggerAgents_failure_spec ⟨false, some "x", some "y", some "z", none⟩
      (Except.error (Thrown.jsError ⟨"boom"⟩))).2 (Thrown.jsError ⟨"boom"⟩) rfl

/-- C5: the frontend polls `/health` every 5000 ms; one poll after a 200
response the status is `healthy` (so the indicator is healthy within one
polling cycle); and the indicator dot is green exactly when the hook
reports `healthy`, pulsing yellow while `checking`, and red otherwise. -/
theorem healthIndicator_spec :
    healthPollIntervalMs = 5000 ∧
    (∀ polls : List Bool, healthAfterPolls (polls ++ [true]) = HealthStatus.healthy) ∧
    (∀ s, healthDotClass s = "bg-green-500" ↔ s = HealthStatus.healthy) ∧
    healthDotClass HealthStatus.checking = "bg-yellow-500 animate-pulse" ∧
    (∀ s, s ≠ HealthStatus.healthy → s ≠ HealthStatus.checking →
      healthDotClass s = "bg-red-500") := by
  refine ⟨rfl, ?_, ?_, rfl, ?_⟩
  · intro polls
    simp [healthAfterPolls, List.foldl_append, stepHealth]
  · intro s
    cases s <;> simp [healthDotClass]
  · intro s h1 h2
    cases s <;> simp_all [healthDotClass]

/-- Witness for C5: after a failed poll followed by a 200 poll the status
is healthy, and the `unhealthy` status shows the red dot. -/
theorem healthIndicator_witness :
    healthAfterPolls [false, true] = HealthStatus.healthy ∧
    healthDotClass HealthStatus.unhealthy = "bg-red-500" :=
  ⟨healthIndicator_spec.2.1 [false],
   healthIndicator_spec.2.2.2.2 HealthStatus.unhealthy (by decide) (by decide)⟩

/-- C6: the route table contains exactly five routes in source order —
`/` → Dashboard, `/interns` → Interns, `/team-members` → TeamMembers,
`/managers` → Managers, and the catch-all `*` → NotFound last — so every
path not matching the four named routes renders NotFound. -/
theorem router_table_spec :
    router.length = 5 ∧
    router.map Route.path = ["/", "/interns", "/team-members", "/managers", "*"] ∧
    router.map Route.component =
      [Page.dashboard, Page.interns, Page.teamMembers, Page.managers, Page.notFound] ∧
    (∀ p : String,
      p ∉ (["/", "/interns", "/team-members", "/managers"] : List String) →
      matchRoute p = some Page.notFound) := by
  refine ⟨rfl, rfl, rfl, ?_⟩
  intro p hp
  obtain ⟨h1, h2, h3, h4⟩ :
      p ≠ "/" ∧ p ≠ "/interns" ∧ p ≠ "/team-members" ∧ p ≠ "/managers" := by
    simpa using hp
  have e1 : (("/" : String) == p) = false := beq_eq_false_iff_ne.mpr (Ne.symm h1)
  have e2 : (("/interns" : String) == p) = false := beq_eq_false_iff_ne.mpr (Ne.symm h2)
  have e3 : (("/team-members" : String) == p) = false :=
    beq_eq_false_iff_ne.mpr (Ne.symm h3)
  have e4 : (("/managers" : String) == p) = false := beq_eq_false_iff_ne.mpr (Ne.symm h4)
  simp [matchRoute, router, routeMatches, List.find?, e1, e2, e3, e4]

/-- Witness for C6: an unknown path renders NotFound. -/
theorem router_table_witness : matchRoute "/some/other/path" = some Page.notFound :=
  router_table_spec.2.2.2 "/some/other/path" (by decide)

/-- C7: across the layout and every routed page, the set of distinct
backend endpoints the single-page application invokes has exactly two
elements: `/health` and `/api/agents/trigger`. -/
theorem appEndpoints_two :
    appEndpoints = ["/health", "/api/agents/trigger"] ∧ appEndpoints.length = 2 :=
  ⟨by decide, by decide⟩

/-- C8: once a `useApi` request settles the loading flag is `false`; on
success `data` holds the parsed result and `error` is reset to `null`; on
failure `error` holds the thrown `Error` (or a wrapped `'Unknown error'`)
and `data` is left unchanged from its previous value. -/
theorem useApi_settle_spec (s : UseApiState) (outcome : Except Thrown Json) :
    (useApiFetch s outcome).loading = false ∧
    (∀ j, outcome = Except.ok j →
      useApiFetch s outcome = { data := some j, loading := false, error := none }) ∧
    (∀ t, outcome = Except.error t →
      useApiFetch s outcome =
        { data := s.data, loading := false, error := some (wrapThrown t) }) := by
  refine ⟨?_, ?_, ?_⟩
  · cases outcome <;> rfl
  · rintro j rfl
    rfl
  · rintro t rfl
    rfl

/-- Witness for C8: a non-`Error` throw wraps into `'Unknown error'` and
leaves the previous data in place. -/
theorem useApi_settle_witness :
    useApiFetch ⟨some (.str "old"), true, none⟩ (Except.error Thrown.other) =
      { data := some (.str "old"), loading := false,
        error := some ⟨"Unknown error"⟩ } :=
  (useApi_settle_spec ⟨some (.str "old"), true, none⟩
      (Except.error Thrown.other)).2.2 Thrown.other rfl

/-- C9: every request issued through `api.request` targets the configured
base URL concatenated with the endpoint, and carries
`Content-Type: application/json` by default with caller-supplied headers
merged after the default (so a caller-provided Content-Type overrides it),
while the method and body pass through unchanged. -/
theorem apiRequest_url_headers_spec (env : Option String) (endpoint : String)
    (options : RequestInit) :
    (buildRequest env endpoint options).url = apiBaseUrl env ++ endpoint ∧
    (buildRequest env endpoint options).method = options.method ∧
    (buildRequest env endpoint options).body = options.body ∧
    lookupLast (buildRequest env endpoint options).headers "Content-Type" =
      some ((lookupLast options.headers "Content-Type").getD "application/json") ∧
    (∀ k, k ≠ "Content-Type" →
      lookupLast (buildRequest env endpoint options).headers k =
        lookupLast options.headers k) := by
  refine ⟨rfl, rfl, rfl, ?_, ?_⟩
  · show lookupLast (("Content-Type", "application/json") :: options.headers)
      "Content-Type" = _
    rw [lookupLast_cons_hit]
  · intro k hk
    show lookupLast (("Content-Type", "application/json") :: options.headers) k = _
    rw [lookupLast_cons_miss _ _ _ hk]

/-- Witness for C9: with a configured base URL and a caller-supplied
Content-Type, the URL is concatenated, the caller's Content-Type wins, and
another caller header passes through. -/
theorem apiRequest_url_headers_witness :
    (buildRequest (some "http://example.com") "/health"
        { headers := [("Content-Type", "text/plain"), ("X-Debug", "1")] }).url =
      "http://example.com/health" ∧
    lookupLast (buildRequest (some "http://example.com") "/health"
        { headers := [("Content-Type", "text/plain"), ("X-Debug", "1")] }).headers
        "Content-Type" = some "text/plain" ∧
    lookupLast (buildRequest (some "http://example.com") "/health"
        { headers := [("Content-Type", "text/plain"), ("X-Debug", "1")] }).headers
        "X-Debug" = some "1" := by
  have h := apiRequest_url_headers_spec (some "http://example.com") "/health"
    { headers := [("Content-Type", "text/plain"), ("X-Debug", "1")] }
  exact ⟨h.1, by rw [h.2.2.2.1]; rfl, by rw [h.2.2.2.2 "X-Debug" (by decide)]; rfl⟩

/-- C10: `handleGetReport` clears both the displayed report and the report
error before fetching; after a failed fetch the previously displayed
report is not retained — `report` is `null` and `reportError` holds the
exception's message (or the generic fallback) — and the report-loading
flag is `false` once the fetch settles either way. -/
theorem handleGetReport_spec (s : ReportDashState) (outcome : Except Thrown Json) :
    (handleGetReport s outcome).isLoadingReport = false ∧
    (∀ t, outcome = Except.error t →
      handleGetReport s outcome =
        { isLoadingReport := false, report := none,
          reportError := some (match t with
            | Thrown.jsError e => e.message
            | Thrown.other => "Failed to fetch report") }) ∧
    (∀ j, outcome = Except.ok j →
      handleGetReport s outcome =
        { isLoadingReport := false, report := some j, reportError := none }) := by
  refine ⟨?_, ?_, ?_⟩
  · cases outcome <;> rfl
  · rintro t rfl
    rfl
  · rintro j rfl
    rfl

/-- Witness for C10: a failed fetch drops the previously displayed report
and records the thrown message. -/
theorem handleGetReport_witness :
    handleGetReport ⟨false, some (.str "previous report"), none⟩
        (Except.error (Thrown.jsError ⟨"network down"⟩)) =
      { isLoadingReport := false, report := none,
        reportError := some "network down" } :=
  (handleGetReport_spec ⟨false, some (.str "previous report"), none⟩
      (Except.error (Thrown.jsError ⟨"network down"⟩))).2.1
    (Thrown.jsError ⟨"network down"⟩) rfl
